import Mathlib

/-!
Shallow embedding of the GenAI Wealth Advisor application (src/app.py).

The application is a single-file Streamlit app.  Its deterministic core is:
  * `get_portfolio_allocation` (app.py lines 25-30): a fixed risk → allocation table;
  * the monthly-investment-plan computation (app.py lines 144-149): the
    ordinary-annuity inversion `monthly = target * r / ((1 + r)**n - 1)` followed by
    `int(round(monthly, 0))`;
  * the static CAGR table and its 5-year column mean (app.py lines 164-174);
  * `explain_portfolio` (app.py lines 32-54): an HTTP call whose failure handling we
    model by a sum type of outcomes;
  * `generate_pdf_bytes` (app.py lines 57-101): sequential text emission, modelled as
    the ordered list of text cells handed to the PDF library.

Numbers: the source computes with Python binary floating point; the embedding uses
exact rationals (ℚ), the standard idealisation of the closed-form arithmetic.  Python
`round(x, 0)` rounds half to even; `int(...)` on the already-integral result is the
identity, so the pair is embedded as `roundHalfEven`.
-/

/-- Model of Python `int(round(x, 0))` (app.py line 149): round to the nearest
integer, ties to the even integer, evaluated on the exact rational value. -/
def roundHalfEven (q : ℚ) : ℤ :=
  if q - ⌊q⌋ < 1/2 then ⌊q⌋
  else if 1/2 < q - ⌊q⌋ then ⌊q⌋ + 1
  else if ⌊q⌋ % 2 = 0 then ⌊q⌋ else ⌊q⌋ + 1

/-- `monthly_rate = rate / 100 / 12` (app.py line 145). -/
def monthlyRate (rate : ℚ) : ℚ := rate / 100 / 12

/-- The denominator `(1 + monthly_rate)**months - 1` of the annuity inversion with
`months = years * 12` (app.py lines 144, 148). -/
def annuityDenom (rate : ℚ) (years : ℤ) : ℚ :=
  (1 + monthlyRate rate) ^ (years * 12) - 1

/-- The monthly-investment-plan computation (app.py lines 144-149):
`monthly = target_corpus * monthly_rate / ((1 + monthly_rate)**months - 1)` followed by
`monthly = int(round(monthly, 0))`.  A `none` result models a Python runtime error on
that line: `(1 + r)**months` raises `ZeroDivisionError` when `1 + r == 0` with a
negative exponent, and the division raises `ZeroDivisionError` when the denominator is
zero.  The source performs no input validation of its own. -/
def requiredMonthlyContribution (target rate : ℚ) (years : ℤ) : Option ℤ :=
  if 1 + monthlyRate rate = 0 ∧ years * 12 < 0 then none
  else if annuityDenom rate years = 0 then none
  else some (roundHalfEven (target * monthlyRate rate / annuityDenom rate years))

/-- An asset allocation: integer percentages for Equity, Debt and Gold. -/
structure Allocation where
  equity : ℕ
  debt : ℕ
  gold : ℕ
deriving DecidableEq

/-- The fixed risk → allocation table (app.py lines 25-30).  The source indexes a
dict literal; a missing key raises `KeyError`, modelled as `none`. -/
def get_portfolio_allocation (risk : String) : Option Allocation :=
  if risk = "Low" then some ⟨30, 60, 10⟩
  else if risk = "Medium" then some ⟨50, 40, 10⟩
  else if risk = "High" then some ⟨70, 20, 10⟩
  else none

/-- Minimal JSON values, enough to model `resp.json()` bodies. -/
inductive Json where
  | null : Json
  | bool (b : Bool) : Json
  | num (q : ℚ) : Json
  | str (s : String) : Json
  | arr (elems : List Json) : Json
  | obj (fields : List (String × Json)) : Json

/-- Object field lookup, as Python `d[key]`; `none` models `KeyError`/`TypeError`. -/
def Json.getField : Json → String → Option Json
  | .obj fields, key => fields.lookup key
  | _, _ => none

/-- Array indexing, as Python `l[i]`; `none` models `IndexError`/`TypeError`. -/
def Json.getIndex : Json → ℕ → Option Json
  | .arr elems, i => elems.get? i
  | _, _ => none

/-- The access path `resp.json()["choices"][0]["message"]["content"]` (app.py
line 51).  The argument is `none` when `resp.json()` itself raised (malformed body);
a failed step along the path models the corresponding Python exception
(`KeyError`/`IndexError`/`TypeError`).  A path that resolves returns whatever JSON
value sits at `content` — line 51 returns it as is, with no string check. -/
def extractContent (body : Option Json) : Option Json :=
  (((body.bind (fun j => j.getField "choices")).bind
      (fun j => j.getIndex 0)).bind
      (fun j => j.getField "message")).bind
      (fun j => j.getField "content")

/-- Outcome of the `requests.post` call (app.py lines 48-49): `failure` models any
exception raised before a response object exists (connection error, timeout);
`response` carries the final HTTP status code and the parsed JSON body (`none` when
the body is not valid JSON). -/
inductive HttpOutcome where
  | failure : HttpOutcome
  | response (status : ℕ) (body : Option Json) : HttpOutcome

/-- The fixed fallback string returned on any caught exception (app.py line 54). -/
def fallbackMessage : String := "Sorry, I couldn’t fetch the explanation right now."

/-- The prompt template (app.py lines 33-39). -/
def explain_prompt (allocation : Allocation) (age : ℤ) (risk goal : String) : String :=
  "Act like a professional financial advisor. " ++
  "Explain this portfolio allocation for a " ++ toString age ++ "-year-old with " ++
  risk ++ " risk tolerance. " ++
  "Goal: " ++ goal ++ ". " ++
  "Allocation: Equity " ++ toString allocation.equity ++ "%, " ++
  "Debt " ++ toString allocation.debt ++ "%, Gold " ++ toString allocation.gold ++ "%."

/-- The result of `explain_portfolio` (app.py lines 47-54) as a function of the HTTP
outcome.  `resp.raise_for_status()` raises exactly for status codes in [400, 600);
every exception inside the `try` block (including a failing body parse or access
path) is caught by `except Exception` and yields the fallback string.  A resolved
access path returns its value unchanged — Python enforces no string type on it — so
the result is a JSON value, with the fallback carried as a string leaf. -/
def explain_portfolio (outcome : HttpOutcome) : Json :=
  match outcome with
  | .failure => Json.str fallbackMessage
  | .response status body =>
    if 400 ≤ status ∧ status < 600 then Json.str fallbackMessage
    else
      match extractContent body with
      | some content => content
      | none => Json.str fallbackMessage

/-- The static CAGR table (app.py lines 164-169), column by column. -/
def cagr_assets : List String := ["Equity", "Debt", "Gold"]

/-- The 1-year CAGR column of the static table (app.py line 166). -/
def cagr_1yr : List ℚ := [225/10, 62/10, 121/10]

/-- The 3-year CAGR column of the static table (app.py line 167). -/
def cagr_3yr : List ℚ := [183/10, 59/10, 114/10]

/-- The 5-year CAGR column of the static table (app.py line 168). -/
def cagr_5yr : List ℚ := [147/10, 6, 106/10]

/-- Model of Python `round(x, 2)` on the exact rational value. -/
def pyRound2 (q : ℚ) : ℚ := (roundHalfEven (q * 100) : ℚ) / 100

/-- `avg_5yr = round(df_cagr["5 Year (%)"].mean(), 2)` (app.py line 173): the
arithmetic mean of the 5-year column, rounded to two decimals. -/
def avg_5yr : ℚ := pyRound2 (cagr_5yr.sum / (cagr_5yr.length : ℚ))

/-- Comma-grouping of a digit list given least-significant digit first. -/
def groupDigits : List Char → List Char
  | [] => []
  | [a] => [a]
  | [a, b] => [a, b]
  | [a, b, c] => [a, b, c]
  | a :: b :: c :: rest => a :: b :: c :: ',' :: groupDigits rest

/-- Model of Python format `{n:,}` for an integer: decimal digits in groups of three
separated by commas, with a leading minus sign for negative values. -/
def formatThousands (n : ℤ) : String :=
  (if n < 0 then "-" else "") ++
    String.mk (groupDigits (Nat.toDigits 10 n.natAbs).reverse).reverse

/-- The `mip_info` dict (app.py lines 155-160).  `rate` holds the text rendering of
the float slider value as interpolated by `{mip_info['rate']}` (floating-point
values appear in this embedding only through their displayed text). -/
structure MipInfo where
  monthly : ℤ
  years : ℤ
  rate : String
  future_value : ℤ

/-- The monthly-investment-plan sentence template (app.py lines 92-97):
`Target Corpus: ₹{future_value:,}\nInvest ₹{monthly:,} per month for {years} years
at {rate}% expected return.` -/
def mipBlock (m : MipInfo) : String :=
  "Target Corpus: ₹" ++ formatThousands m.future_value ++ "\n" ++
  "Invest ₹" ++ formatThousands m.monthly ++ " per month " ++
  "for " ++ toString m.years ++ " years at " ++
  m.rate ++ "% expected return."

/-- The text cells of `generate_pdf_bytes` (app.py lines 57-101), in emission order.
The PDF library serialises these strings deterministically into the document byte
stream; the embedding keeps the text layer, which is where every input-dependent
byte originates. -/
def generate_pdf_lines (name : String) (age : ℤ) (income : ℤ) (risk : String)
    (goal : String) (allocation : List (String × ℕ)) (explanation : String)
    (mip_info : Option MipInfo) : List String :=
  ["Wealth Advisor Report",
   "Name: " ++ name ++ "    Age: " ++ toString age ++
     "    Monthly Income: ₹" ++ formatThousands income,
   "Risk Tolerance: " ++ risk ++ "    Goal: " ++ goal,
   "Portfolio Allocation:"] ++
  allocation.map (fun p => "- " ++ p.1 ++ ": " ++ toString p.2 ++ "%") ++
  ["Advisor’s Explanation:", explanation] ++
  (match mip_info with
   | some m => ["Monthly Investment Plan:", mipBlock m]
   | none => [])

/-- A character that Python `str.encode("latin-1")` accepts: code point below 256. -/
def latin1Byte (c : Char) : Bool := c.toNat < 256

/-- `generate_pdf_bytes` (app.py lines 57-101) down to its returned bytes: the PDF
body embeds every text cell of `generate_pdf_lines`, and line 100 runs
`pdf.output(dest="S").encode("latin-1")` on the assembled document.  The encode
raises `UnicodeEncodeError` (modelled as `none`) as soon as any cell contains a
character with code point ≥ 256; otherwise the input-dependent bytes of the
document are the latin-1 codes of the cell texts in emission order (the remaining
PDF structure around them is fixed ASCII scaffolding). -/
def generate_pdf_bytes (name : String) (age : ℤ) (income : ℤ) (risk : String)
    (goal : String) (allocation : List (String × ℕ)) (explanation : String)
    (mip_info : Option MipInfo) : Option (List ℕ) :=
  let cells := generate_pdf_lines name age income risk goal allocation explanation
    mip_info
  if cells.all (fun s => s.data.all latin1Byte) then
    some (((cells.map String.data).flatten).map Char.toNat)
  else none

/-- C1: for every targetAmount > 0, annualRatePercent > 0 and integer years ≥ 1, the
monthly-investment-plan computation succeeds and equals
targetAmount * r / ((1 + r)^n - 1) rounded to the nearest whole currency unit, where
r = annualRatePercent / 100 / 12 and n = years * 12. -/
theorem requiredMonthlyContribution_eq_annuity_formula (target rate : ℚ) (years : ℤ)
    (htarget : 0 < target) (hrate : 0 < rate) (hyears : 1 ≤ years) :
    requiredMonthlyContribution target rate years =
      some (roundHalfEven (target * (rate / 100 / 12) /
        ((1 + rate / 100 / 12) ^ (years * 12) - 1))) := by
  have hr : 0 < monthlyRate rate := by unfold monthlyRate; positivity
  have hm : 0 < years * 12 := by omega
  have hgt : 1 < (1 + monthlyRate rate) ^ (years * 12) :=
    one_lt_zpow₀ (by linarith) hm
  have hd : 0 < annuityDenom rate years := by unfold annuityDenom; linarith
  have h1 : ¬(1 + monthlyRate rate = 0 ∧ years * 12 < 0) := fun h => by linarith [h.1]
  unfold requiredMonthlyContribution
  rw [if_neg h1, if_neg (ne_of_gt hd)]
  unfold annuityDenom monthlyRate
  rfl

theorem requiredMonthlyContribution_eq_annuity_formula_witness :
    requiredMonthlyContribution 4500000 12 10 =
      some (roundHalfEven (4500000 * ((12 : ℚ) / 100 / 12) /
        ((1 + (12 : ℚ) / 100 / 12) ^ ((10 : ℤ) * 12) - 1))) :=
  requiredMonthlyContribution_eq_annuity_formula 4500000 12 10 (by norm_num)
    (by norm_num) (by norm_num)

/-- C2 counterexample: at targetAmount 4500000, rate 0, years 10 the computation does
not succeed with 4500000 / 120 = 37500; the division-by-zero path is taken (the
source has no zero-rate special case). -/
theorem requiredMonthlyContribution_zero_rate_cx :
    requiredMonthlyContribution 4500000 0 10 = none := by
  unfold requiredMonthlyContribution annuityDenom monthlyRate
  norm_num

/-- C2 amended: for a zero annual rate the computation always fails with a
division-by-zero error; the implementation does not special-case r = 0 (the rate
widget's lower bound of 6.0 keeps this input out of reach in the UI). -/
theorem requiredMonthlyContribution_zero_rate_fails : ∀ (target : ℚ) (years : ℤ),
    requiredMonthlyContribution target 0 years = none := by
  intro t y
  unfold requiredMonthlyContribution annuityDenom monthlyRate
  norm_num [one_zpow]

/-- C3 counterexample: at targetAmount 0 (with rate 12, years 1) the computation
returns the value 0 instead of failing; the source validates none of its inputs. -/
theorem requiredMonthlyContribution_zero_target_cx :
    requiredMonthlyContribution 0 12 1 = some 0 := by
  unfold requiredMonthlyContribution annuityDenom monthlyRate roundHalfEven
  norm_num

/-- C3 amended: the source performs no input validation and raises no InvalidArgument
error; a nonpositive targetAmount yields a value rather than an error.  The only
failing bad input is years = 0, which fails with a division-by-zero error because the
denominator (1 + r)^0 - 1 is zero. -/
theorem requiredMonthlyContribution_zero_years_fails : ∀ (target rate : ℚ),
    requiredMonthlyContribution target rate 0 = none := by
  intro t r
  unfold requiredMonthlyContribution annuityDenom monthlyRate
  norm_num

/-- C4: the allocation lookup returns exactly the fixed table (Low: 30/60/10,
Medium: 50/40/10, High: 70/20/10) and fails for every other risk string; it is a
pure function of its argument. -/
theorem get_portfolio_allocation_table :
    get_portfolio_allocation "Low" = some ⟨30, 60, 10⟩ ∧
    get_portfolio_allocation "Medium" = some ⟨50, 40, 10⟩ ∧
    get_portfolio_allocation "High" = some ⟨70, 20, 10⟩ ∧
    ∀ risk : String, risk ∉ ["Low", "Medium", "High"] →
      get_portfolio_allocation risk = none := by
  refine ⟨rfl, rfl, rfl, ?_⟩
  intro risk h
  simp only [List.mem_cons, List.not_mem_nil, or_false, not_or] at h
  obtain ⟨h1, h2, h3⟩ := h
  unfold get_portfolio_allocation
  rw [if_neg h1, if_neg h2, if_neg h3]

theorem get_portfolio_allocation_table_witness :
    get_portfolio_allocation "Equity" = none :=
  get_portfolio_allocation_table.2.2.2 "Equity" (by decide)

/-- C5: every allocation the lookup can return has percentages summing to exactly
100; the table is a fixed constant of the embedding, so no operation mutates it. -/
theorem get_portfolio_allocation_sum_100 : ∀ (risk : String) (a : Allocation),
    get_portfolio_allocation risk = some a → a.equity + a.debt + a.gold = 100 := by
  intro risk a h
  unfold get_portfolio_allocation at h
  split_ifs at h <;> cases h <;> rfl

theorem get_portfolio_allocation_sum_100_witness :
    (Allocation.mk 30 60 10).equity + (Allocation.mk 30 60 10).debt +
      (Allocation.mk 30 60 10).gold = 100 :=
  get_portfolio_allocation_sum_100 "Low" ⟨30, 60, 10⟩ rfl

/-- A well-formed chat-completion body with `choices[0].message.content` present. -/
def sampleBody : Json :=
  Json.obj [("choices", Json.arr
    [Json.obj [("message", Json.obj [("content", Json.str "All good.")])]])]

/-- C6 counterexample: a 304 response (non-2xx) with a well-formed body yields the
body content, not the fallback string: `raise_for_status` raises only for status
codes in [400, 600), so not every non-2xx status degrades to the fallback. -/
theorem explain_portfolio_304_cx :
    explain_portfolio (HttpOutcome.response 304 (some sampleBody)) =
      Json.str "All good." ∧
    "All good." ≠ fallbackMessage ∧ ¬(200 ≤ 304 ∧ 304 < 300) := by
  refine ⟨rfl, by decide, by omega⟩

/-- C6 amended: explain_portfolio never raises (it is total); it returns the fixed
fallback string on a network failure, on any 4xx/5xx status (the statuses
`raise_for_status` raises for), and on a body where the access path
choices[0].message.content fails to resolve (the exceptions that reach the handler);
on a response with status < 400 (which includes every 2xx) whose access path
resolves, it returns the resolved choices[0].message.content value unchanged,
whatever its JSON type. -/
theorem explain_portfolio_fallback_spec :
    (explain_portfolio HttpOutcome.failure = Json.str fallbackMessage) ∧
    (∀ (status : ℕ) (body : Option Json), 400 ≤ status → status < 600 →
      explain_portfolio (HttpOutcome.response status body) =
        Json.str fallbackMessage) ∧
    (∀ (status : ℕ) (body : Option Json), extractContent body = none →
      explain_portfolio (HttpOutcome.response status body) =
        Json.str fallbackMessage) ∧
    (∀ (status : ℕ) (body : Option Json) (content : Json), status < 400 →
      extractContent body = some content →
      explain_portfolio (HttpOutcome.response status body) = content) := by
  refine ⟨rfl, ?_, ?_, ?_⟩
  · intro s b hlo hhi
    simp [explain_portfolio, hlo, hhi]
  · intro s b h
    simp [explain_portfolio, h]
  · intro s b c hs h
    have hcond : ¬(400 ≤ s ∧ s < 600) := by omega
    simp [explain_portfolio, hcond, h]

theorem explain_portfolio_fallback_spec_witness :
    explain_portfolio (HttpOutcome.response 500 none) = Json.str fallbackMessage :=
  explain_portfolio_fallback_spec.2.1 500 none (by norm_num) (by norm_num)

/-- C7 counterexample: the annuity formula of the source does not produce the
spec-pinned 19,566 at (4,500,000, 12.0, 10). -/
theorem pinned_monthly_value_cx :
    requiredMonthlyContribution 4500000 12 10 ≠ some 19566 := by
  intro h
  have hv : requiredMonthlyContribution 4500000 12 10 = some 19562 := by
    unfold requiredMonthlyContribution annuityDenom monthlyRate roundHalfEven
    norm_num
  rw [hv] at h
  simp at h

/-- C7 amended: requiredMonthlyContribution(4,500,000, 12.0, 10) equals 19,562 after
rounding (the exact pre-rounding value is 45000 / ((101/100)^120 - 1) ≈ 19561.93). -/
theorem pinned_monthly_value :
    requiredMonthlyContribution 4500000 12 10 = some 19562 := by
  unfold requiredMonthlyContribution annuityDenom monthlyRate roundHalfEven
  norm_num

/-- C8: the displayed average 5-year CAGR is deterministically the arithmetic mean of
the fixed table's 5-year column {14.7, 6.0, 10.6} rounded to two decimals, i.e.
exactly 10.43; the value is a constant of the embedding, with no I/O involved. -/
theorem avg_5yr_value : avg_5yr = 1043 / 100 := by
  unfold avg_5yr pyRound2 cagr_5yr roundHalfEven
  norm_num

/-- Supporting fact for the report renderer: whenever plan data is present, the text
cells handed to the PDF library contain the plan's fixed sentence template with the
currency values rendered by the thousands-separator format, and that format groups
digits as Python does (pinned on the default corpus and monthly values).  This is
the text the document would carry were the encoding step able to succeed. -/
theorem generate_pdf_lines_plan_template :
    (∀ (name : String) (age income : ℤ) (risk goal : String)
      (allocation : List (String × ℕ)) (explanation : String) (m : MipInfo),
      ("Target Corpus: ₹" ++ formatThousands m.future_value ++ "\n" ++
       "Invest ₹" ++ formatThousands m.monthly ++ " per month " ++
       "for " ++ toString m.years ++ " years at " ++
       m.rate ++ "% expected return.") ∈
        generate_pdf_lines name age income risk goal allocation explanation
          (some m)) ∧
    formatThousands 4500000 = "4,500,000" ∧ formatThousands 19562 = "19,562" := by
  refine ⟨?_, rfl, rfl⟩
  intro name age income risk goal allocation explanation m
  simp [generate_pdf_lines, mipBlock]

/-- C9: the render never succeeds.  The profile line (app.py line 68) and the fixed
heading at line 82 always put the characters ₹ (U+20B9) and ’ (U+2019) into the
document, neither of which latin-1 can encode, so line 100's
`pdf.output(dest="S").encode("latin-1")` raises `UnicodeEncodeError` on every
invocation — plan data present or not — and no document bytes are ever produced. -/
theorem generate_pdf_bytes_always_fails : ∀ (name : String) (age income : ℤ)
    (risk goal : String) (allocation : List (String × ℕ)) (explanation : String)
    (mip_info : Option MipInfo),
    generate_pdf_bytes name age income risk goal allocation explanation mip_info =
      none := by
  intro name age income risk goal allocation explanation mip_info
  have hp : (("Advisor’s Explanation:").data.all latin1Byte) = false := by decide
  unfold generate_pdf_bytes generate_pdf_lines
  cases mip_info <;> simp [List.all_append, hp]

/-- C10: under the widget bounds (rate in [6, 15], years in [1, 40]) the annuity
denominator (1 + r)^n - 1 is strictly positive — the division never divides by
zero — and the computed monthly contribution is strictly positive whenever the
target amount is. -/
theorem widget_bounds_denominator_pos : ∀ (target rate : ℚ) (years : ℤ),
    6 ≤ rate → rate ≤ 15 → 1 ≤ years → years ≤ 40 → 0 < target →
    0 < annuityDenom rate years ∧
    0 < target * monthlyRate rate / annuityDenom rate years ∧
    requiredMonthlyContribution target rate years =
      some (roundHalfEven (target * monthlyRate rate / annuityDenom rate years)) := by
  intro target rate years h6 h15 hy1 hy40 ht
  have hr : 0 < monthlyRate rate := by unfold monthlyRate; positivity
  have hm : 0 < years * 12 := by omega
  have hgt : 1 < (1 + monthlyRate rate) ^ (years * 12) :=
    one_lt_zpow₀ (by linarith) hm
  have hd : 0 < annuityDenom rate years := by unfold annuityDenom; linarith
  refine ⟨hd, div_pos (mul_pos ht hr) hd, ?_⟩
  have h1 : ¬(1 + monthlyRate rate = 0 ∧ years * 12 < 0) := fun h => by linarith [h.1]
  unfold requiredMonthlyContribution
  rw [if_neg h1, if_neg (ne_of_gt hd)]

theorem widget_bounds_denominator_pos_witness :
    0 < annuityDenom 12 10 ∧
    0 < 4500000 * monthlyRate 12 / annuityDenom 12 10 ∧
    requiredMonthlyContribution 4500000 12 10 =
      some (roundHalfEven (4500000 * monthlyRate 12 / annuityDenom 12 10)) :=
  widget_bounds_denominator_pos 4500000 12 10 (by norm_num) (by norm_num)
    (by norm_num) (by norm_num) (by norm_num)
